import Mathlib

/-!
Shallow embedding of `src/power_supply.rs` from the `lid` repository.

The purely computational core of the program is embedded as Lean
functions:

* `udev::Device` becomes `Lid.Device`: the only parts of a udev device the
  program reads are the parent's driver string (`dev.parent()?.driver()?`),
  the short sysname (`dev.sysname()`, read through `to_string_lossy`, so we
  keep it as a `String`), and the string-valued properties
  (`dev.property_value(key)`).
* `OsStr` values become `Lid.OsStrM`: either valid UTF-8 (carrying the
  `String` that `to_str` returns) or invalid (where `to_str` returns `None`).
* Panics (`assert!`, `todo!`) and the undefined behaviour of
  `unwrap_unchecked` on an empty slot are modelled by `Option`: `none` means
  the operation did not return normally.
* The I/O layer (mio polling, the udev monitor socket) is not part of any
  claim; the device lists produced by enumeration and by draining the
  monitor socket are passed in as explicit `List Device` arguments.
-/

namespace Lid

/-- Rust `enum DeviceType` from power_supply.rs. -/
inductive DeviceType where
  | Battery
  | Adapter
deriving DecidableEq, Repr

/-- Rust `enum Status` from power_supply.rs. -/
inductive Status where
  | Discharging
  | Charging
  | Unknown
deriving DecidableEq, Repr

/-- Model of `&OsStr`: either valid UTF-8 or not. -/
inductive OsStrM where
  | valid (s : String)
  | invalid
deriving DecidableEq, Repr

/-- `OsStr::to_str`: `Some` exactly on valid UTF-8. -/
def OsStrM.to_str : OsStrM → Option String
  | .valid s => some s
  | .invalid => none

/-- `Default::default()` for `&OsStr` is the empty string (used by
`unwrap_or_default` on `Option<&OsStr>`). -/
def OsStrM.defaultVal : OsStrM := OsStrM.valid ""

/-- Model of `udev::Device`, restricted to the data power_supply.rs reads:
`parent_driver` models `dev.parent()` (outer `Option`) followed by
`.driver()` (inner `Option`); `sysname` models `dev.sysname()` after
`to_string_lossy`; `props` models the udev property table queried by
`dev.property_value`. -/
structure Device where
  parent_driver : Option (Option OsStrM)
  sysname : String
  props : List (String × OsStrM)
deriving DecidableEq, Repr

/-- `dev.property_value(key)`. -/
def Device.property_value (dev : Device) (key : String) : Option OsStrM :=
  dev.props.lookup key

/-- Rust `str::parse::<i32>`: optional single `+`/`-` sign, then one or more
ASCII digits, value within the `i32` range; anything else is an error
(`none`). -/
def parseI32 (s : String) : Option Int :=
  let cs := s.data
  let signDigits : Int × List Char :=
    match cs with
    | '+' :: rest => (1, rest)
    | '-' :: rest => (-1, rest)
    | _ => (1, cs)
  let sign := signDigits.1
  let digits := signDigits.2
  if digits.isEmpty then none
  else if digits.all Char.isDigit then
    let n : Nat := digits.foldl (fun acc c => acc * 10 + (c.toNat - 48)) 0
    let v : Int := sign * n
    if -(2 ^ 31) ≤ v ∧ v < 2 ^ 31 then some v else none
  else none

/-- The string the battery reader matches on (power_supply.rs lines 31-35):
`dev.property_value("POWER_SUPPLY_STATUS").map(OsStr::to_str)
.unwrap_or_default().unwrap_or_default()`. -/
def battery_status_str (dev : Device) : String :=
  (((dev.property_value "POWER_SUPPLY_STATUS").map OsStrM.to_str).getD none).getD ""

/-- `Status::read_from_battery_device` (power_supply.rs lines 29-41).
The Rust `match` on `&str` is a sequence of string-equality tests. -/
def Status.read_from_battery_device (dev : Device) : Status :=
  let status := battery_status_str dev
  if status = "Charging" then Status.Charging
  else if status = "Discharging" ∨ status = "Not charging" then Status.Discharging
  else Status.Unknown

/-- The string fed to `parse::<i32>` by the adapter reader (power_supply.rs
lines 45-49): `dev.property_value("POWER_SUPPLY_ONLINE").unwrap_or_default()
.to_str().unwrap_or_default()`. -/
def adapter_online_str (dev : Device) : String :=
  (((dev.property_value "POWER_SUPPLY_ONLINE").getD OsStrM.defaultVal).to_str).getD ""

/-- `Status::read_from_adapter_device` (power_supply.rs lines 43-57).
The Rust `match` on `i32` is a sequence of integer-equality tests. -/
def Status.read_from_adapter_device (dev : Device) : Status :=
  let online : Int := (parseI32 (adapter_online_str dev)).getD (-1)
  if online = 0 then Status.Discharging
  else if online = 1 ∨ online = 2 then Status.Charging
  else Status.Unknown

/-- `struct PowerSupply` (power_supply.rs lines 72-81), without the
`socket` field, which belongs to the I/O layer. -/
structure PowerSupply where
  bat : Option Device
  adp : Option Device
  status : Status
  status_changed : Bool
deriving DecidableEq, Repr

/-- `PowerSupply::new` (power_supply.rs lines 114-123). -/
def PowerSupply.new : PowerSupply :=
  { bat := none, adp := none, status := Status.Unknown, status_changed := true }

/-- `impl Default for PowerSupply` (power_supply.rs lines 232-238). -/
def PowerSupply.defaultImpl : PowerSupply := PowerSupply.new

/-- `PowerSupply::charging_status_changed` (power_supply.rs lines 134-138). -/
def PowerSupply.charging_status_changed (ps : PowerSupply) : Bool :=
  ps.status_changed

/-- `PowerSupply::charging_status` (power_supply.rs lines 141-145). -/
def PowerSupply.charging_status (ps : PowerSupply) : Status :=
  ps.status

/-- Rust `str::starts_with` with a string pattern: the pattern's characters
are a prefix of the string's characters. -/
def strStartsWith (s pre : String) : Bool :=
  pre.data.isPrefixOf s.data

/-- `PowerSupply::device_type` (power_supply.rs lines 195-211).  Each `?`
in `dev.parent()?.driver()?.to_str()?` makes the whole function return
`None`; only when a driver string is obtained does the `match` run, and
only its `_` arm consults the sysname. -/
def device_type (dev : Device) : Option DeviceType := do
  let pd ← dev.parent_driver
  let os ← pd
  let s ← os.to_str
  if s = "battery" then some DeviceType.Battery
  else if s = "ac" then some DeviceType.Adapter
  else if strStartsWith dev.sysname "BAT" then some DeviceType.Battery
  else if strStartsWith dev.sysname "ADP" then some DeviceType.Adapter
  else none

/-- `PowerSupply::set_device` (power_supply.rs lines 177-184).  The `None`
classification arm is `todo!()`, a panic; we model the panic as `none`. -/
def set_device (ps : PowerSupply) (dev : Device) : Option PowerSupply :=
  match device_type dev with
  | some DeviceType.Battery => some { ps with bat := some dev }
  | some DeviceType.Adapter => some { ps with adp := some dev }
  | none => none

/-- `PowerSupply::enumerate` (power_supply.rs lines 147-161), with the list
of devices returned by the udev scan passed in explicitly.  The
`assert!(devices.len() == 2)` panic is modelled as `none`; the subsequent
`for_each(set_device)` is a monadic fold because `set_device` can panic. -/
def enumerate (ps : PowerSupply) (devices : List Device) : Option PowerSupply :=
  if devices.length = 2 then devices.foldlM set_device ps
  else none

/-- `PowerSupply::set_devices_if_not_set` (power_supply.rs lines 186-192). -/
def set_devices_if_not_set (ps : PowerSupply) (devices : List Device) :
    Option PowerSupply :=
  if ps.bat.isNone || ps.adp.isNone then enumerate ps devices
  else some ps

/-- The pure resolution of a held adapter/battery pair: the adapter
reading wins unless it is `Unknown`, in which case the battery reading is
used.  Whenever both slots are held this is the status that
`current_charging_status` computes (power_supply.rs lines 218-225). -/
def resolve (adp bat : Device) : Status :=
  match Status.read_from_adapter_device adp with
  | Status.Unknown => Status.read_from_battery_device bat
  | s => s

/-- `PowerSupply::current_charging_status` (power_supply.rs lines 215-229).
The `unsafe { ... unwrap_unchecked() }` reads are modelled by `bind`/`map`:
`none` means an unchecked unwrap observed an absent slot (undefined
behaviour in the source).  The adapter slot is read unconditionally, but
the battery unwrap is the body of the `Status::Unknown =>` match arm
(source lines 221-223), so it is evaluated only when the adapter reading
is inconclusive — a conclusive adapter reading returns normally even with
an empty battery slot. -/
def current_charging_status (ps : PowerSupply) (devices : List Device) :
    Option PowerSupply :=
  (set_devices_if_not_set ps devices).bind fun ps2 =>
    ps2.adp.bind fun a =>
      (match Status.read_from_adapter_device a with
        | Status.Unknown => ps2.bat.map Status.read_from_battery_device
        | s => some s).bind fun status =>
        some { ps2 with status_changed := status != ps2.status, status := status }

/-- `PowerSupply::update` (power_supply.rs lines 125-132), with the events
drained from the monitor socket passed in as the device list they carry. -/
def update (ps : PowerSupply) (events : List Device) (devices : List Device) :
    Option PowerSupply :=
  (events.foldlM set_device ps).bind fun ps2 =>
    current_charging_status ps2 devices

/-! Concrete devices used by counterexamples and witnesses. -/

/-- An AC adapter device as udev reports it: parent driver `"ac"`, reporting
`POWER_SUPPLY_ONLINE=1`. -/
def demo_adp : Device :=
  { parent_driver := some (some (OsStrM.valid "ac")), sysname := "ADP1",
    props := [("POWER_SUPPLY_ONLINE", OsStrM.valid "1")] }

/-- A battery device: parent driver `"battery"`,
`POWER_SUPPLY_STATUS=Discharging`. -/
def demo_bat : Device :=
  { parent_driver := some (some (OsStrM.valid "battery")), sysname := "BAT0",
    props := [("POWER_SUPPLY_STATUS", OsStrM.valid "Discharging")] }

/-- The tracker state after ingesting `demo_adp` then `demo_bat` into a
fresh tracker: both slots filled, status still the initial `Unknown`. -/
def demo_after_ingest : PowerSupply :=
  { bat := some demo_bat, adp := some demo_adp,
    status := Status.Unknown, status_changed := true }

/-- The tracker state after one `current_charging_status` pass over
`demo_after_ingest`. -/
def demo_recomputed : PowerSupply :=
  { bat := some demo_bat, adp := some demo_adp,
    status := Status.Charging, status_changed := true }

/-- The tracker state after a second `current_charging_status` pass with
nothing changed in between: same status, change flag cleared. -/
def demo_recomputed_twice : PowerSupply :=
  { bat := some demo_bat, adp := some demo_adp,
    status := Status.Charging, status_changed := false }

/-- A device whose parent lookup fails (`dev.parent()` is `None`) but whose
sysname begins with `"BAT"`. -/
def cex_orphan_bat : Device :=
  { parent_driver := none, sysname := "BAT0", props := [] }

/-- A device with a resolvable but unrecognised parent driver and a sysname
matching no prefix: `device_type` classifies it as `none`. -/
def cex_unclassified : Device :=
  { parent_driver := some (some (OsStrM.valid "usb")), sysname := "hidraw0",
    props := [] }

/-- A device with unrecognised parent driver `"usb"` whose sysname begins
with `"BAT"`: classified through the name fallback. -/
def cex_usb_bat : Device :=
  { parent_driver := some (some (OsStrM.valid "usb")), sysname := "BAT0",
    props := [] }

/-- First of two battery devices used to refute the one-of-each guarantees. -/
def cex_bat0 : Device :=
  { parent_driver := some (some (OsStrM.valid "battery")), sysname := "BAT0",
    props := [] }

/-- Second battery device. -/
def cex_bat1 : Device :=
  { parent_driver := some (some (OsStrM.valid "battery")), sysname := "BAT1",
    props := [] }

/-- The driver string the primary classification rule matches on, when it
resolves: `dev.parent()?.driver()?.to_str()?`. -/
def parent_driver_str (dev : Device) : Option String :=
  match dev.parent_driver with
  | some (some os) => os.to_str
  | _ => none

/-- The mapping the spec states for the adapter "online" property
(spec section 8, first bullet), as a function of the parse result. -/
def spec_adapter_status (o : Option Int) : Status :=
  match o with
  | some n =>
    if n = 0 then Status.Discharging
    else if n = 1 ∨ n = 2 then Status.Charging
    else Status.Unknown
  | none => Status.Unknown

/-- The mapping the spec states for the battery status property
(spec section 8, second bullet), as a function of the textual property
value, `none` meaning absent or unreadable. -/
def spec_battery_status (o : Option String) : Status :=
  match o with
  | some s =>
    if s = "Charging" then Status.Charging
    else if s = "Discharging" ∨ s = "Not charging" then Status.Discharging
    else Status.Unknown
  | none => Status.Unknown

/-- The battery status property as text, `none` when absent or not UTF-8. -/
def battery_status_raw (dev : Device) : Option String :=
  (dev.property_value "POWER_SUPPLY_STATUS").bind OsStrM.to_str

/-- The invariant claimed by the spec for `current_status`: it equals the
pure resolution of the two held descriptors, or `Unknown` when a slot is
empty. -/
abbrev status_invariant (ps : PowerSupply) : Prop :=
  ps.status = match ps.adp, ps.bat with
    | some a, some b => resolve a b
    | _, _ => Status.Unknown

/-! Helper lemmas shared by the claim proofs. -/

/-- Boolean inequality of a status with itself is `false`. -/
theorem Status.bne_self (s : Status) : (s != s) = false := by
  cases s <;> rfl

/-- Case analysis of a successful `set_device` call. -/
theorem set_device_eq_some (ps ps1 : PowerSupply) (d : Device)
    (h : set_device ps d = some ps1) :
    (device_type d = some DeviceType.Battery ∧ ps1 = { ps with bat := some d }) ∨
    (device_type d = some DeviceType.Adapter ∧ ps1 = { ps with adp := some d }) := by
  cases hd : device_type d with
  | none => simp [set_device, hd] at h
  | some t =>
    cases t with
    | Battery =>
      refine Or.inl ⟨rfl, ?_⟩
      simp [set_device, hd] at h
      exact h.symm
    | Adapter =>
      refine Or.inr ⟨rfl, ?_⟩
      simp [set_device, hd] at h
      exact h.symm

/-- `set_device` succeeds exactly on classifiable devices. -/
theorem set_device_isSome_iff (ps : PowerSupply) (d : Device) :
    (set_device ps d).isSome = true ↔ (device_type d).isSome = true := by
  cases hd : device_type d with
  | none => simp [set_device, hd]
  | some t => cases t <;> simp [set_device, hd]

/-- A fold of `set_device` over a device list returns normally iff every
device in the list classifies as `some` device type. -/
theorem foldlM_set_device_isSome (devs : List Device) (ps : PowerSupply) :
    (devs.foldlM set_device ps).isSome = true ↔
      ∀ d ∈ devs, (device_type d).isSome = true := by
  induction devs generalizing ps with
  | nil => simp
  | cons d rest ih =>
    rw [List.foldlM_cons]
    cases hd : device_type d with
    | none =>
      have hsd : set_device ps d = none := by simp [set_device, hd]
      simp [hsd, hd]
    | some t =>
      cases t with
      | Battery =>
        have hsd : set_device ps d = some { ps with bat := some d } := by
          simp [set_device, hd]
        simp [hsd, hd, ih]
      | Adapter =>
        have hsd : set_device ps d = some { ps with adp := some d } := by
          simp [set_device, hd]
        simp [hsd, hd, ih]

/-- Successful `set_device` leaves the battery slot filled iff the device
was classified as a battery or the slot was filled before. -/
theorem set_device_bat_isSome (ps ps1 : PowerSupply) (d : Device)
    (h : set_device ps d = some ps1) :
    ps1.bat.isSome = true ↔
      (device_type d = some DeviceType.Battery ∨ ps.bat.isSome = true) := by
  rcases set_device_eq_some ps ps1 d h with ⟨hd, rfl⟩ | ⟨hd, rfl⟩ <;> simp [hd]

/-- Successful `set_device` leaves the adapter slot filled iff the device
was classified as an adapter or the slot was filled before. -/
theorem set_device_adp_isSome (ps ps1 : PowerSupply) (d : Device)
    (h : set_device ps d = some ps1) :
    ps1.adp.isSome = true ↔
      (device_type d = some DeviceType.Adapter ∨ ps.adp.isSome = true) := by
  rcases set_device_eq_some ps ps1 d h with ⟨hd, rfl⟩ | ⟨hd, rfl⟩ <;> simp [hd]

/-- After a successful fold of `set_device`, the battery slot is filled iff
some folded device classified as a battery or it was filled initially. -/
theorem foldlM_set_device_bat (devs : List Device) (ps p : PowerSupply)
    (h : devs.foldlM set_device ps = some p) :
    p.bat.isSome = true ↔
      ((∃ d ∈ devs, device_type d = some DeviceType.Battery) ∨
        ps.bat.isSome = true) := by
  induction devs generalizing ps with
  | nil =>
    simp only [List.foldlM_nil] at h
    cases h
    simp
  | cons d rest ih =>
    rw [List.foldlM_cons] at h
    cases hsd : set_device ps d with
    | none => rw [hsd] at h; simp at h
    | some ps1 =>
      rw [hsd] at h
      simp only [Option.bind_eq_bind, Option.some_bind] at h
      rw [ih ps1 h, set_device_bat_isSome ps ps1 d hsd,
        List.exists_mem_cons_iff]
      constructor
      · rintro (h1 | h2 | h3)
        exacts [Or.inl (Or.inr h1), Or.inl (Or.inl h2), Or.inr h3]
      · rintro ((h1 | h2) | h3)
        exacts [Or.inr (Or.inl h1), Or.inl h2, Or.inr (Or.inr h3)]

/-- After a successful fold of `set_device`, the adapter slot is filled iff
some folded device classified as an adapter or it was filled initially. -/
theorem foldlM_set_device_adp (devs : List Device) (ps p : PowerSupply)
    (h : devs.foldlM set_device ps = some p) :
    p.adp.isSome = true ↔
      ((∃ d ∈ devs, device_type d = some DeviceType.Adapter) ∨
        ps.adp.isSome = true) := by
  induction devs generalizing ps with
  | nil =>
    simp only [List.foldlM_nil] at h
    cases h
    simp
  | cons d rest ih =>
    rw [List.foldlM_cons] at h
    cases hsd : set_device ps d with
    | none => rw [hsd] at h; simp at h
    | some ps1 =>
      rw [hsd] at h
      simp only [Option.bind_eq_bind, Option.some_bind] at h
      rw [ih ps1 h, set_device_adp_isSome ps ps1 d hsd,
        List.exists_mem_cons_iff]
      constructor
      · rintro (h1 | h2 | h3)
        exacts [Or.inl (Or.inr h1), Or.inl (Or.inl h2), Or.inr h3]
      · rintro ((h1 | h2) | h3)
        exacts [Or.inr (Or.inl h1), Or.inl h2, Or.inr (Or.inr h3)]

/-- Case analysis of a successful population guard: either both slots were
already filled and the state is unchanged, or a slot was empty and the
enumeration list (of length two) was folded in. -/
theorem set_devices_if_not_set_eq_some (ps : PowerSupply) (devs : List Device)
    (ps2 : PowerSupply) (h : set_devices_if_not_set ps devs = some ps2) :
    (ps.bat.isSome = true ∧ ps.adp.isSome = true ∧ ps2 = ps) ∨
    ((ps.bat.isNone = true ∨ ps.adp.isNone = true) ∧ devs.length = 2 ∧
      devs.foldlM set_device ps = some ps2) := by
  unfold set_devices_if_not_set at h
  by_cases hc : (ps.bat.isNone || ps.adp.isNone) = true
  · rw [if_pos hc] at h
    unfold enumerate at h
    by_cases hl : devs.length = 2
    · rw [if_pos hl] at h
      refine Or.inr ⟨by simpa using hc, hl, h⟩
    · rw [if_neg hl] at h
      simp at h
  · rw [if_neg hc] at h
    refine Or.inl ⟨?_, ?_, (Option.some.inj h).symm⟩
    · cases hbb : ps.bat with
      | none => exact absurd (by simp [hbb]) hc
      | some x => rfl
    · cases haa : ps.adp with
      | none => exact absurd (by simp [haa]) hc
      | some x => rfl

/-- `set_device` never touches the status fields. -/
theorem set_device_preserves_status (ps ps1 : PowerSupply) (d : Device)
    (h : set_device ps d = some ps1) :
    ps1.status = ps.status ∧ ps1.status_changed = ps.status_changed := by
  rcases set_device_eq_some ps ps1 d h with ⟨_, rfl⟩ | ⟨_, rfl⟩ <;> exact ⟨rfl, rfl⟩

/-- A fold of `set_device` never touches the status fields. -/
theorem foldlM_set_device_status (devs : List Device) (ps p : PowerSupply)
    (h : devs.foldlM set_device ps = some p) :
    p.status = ps.status ∧ p.status_changed = ps.status_changed := by
  induction devs generalizing ps with
  | nil =>
    simp only [List.foldlM_nil] at h
    cases h
    exact ⟨rfl, rfl⟩
  | cons d rest ih =>
    rw [List.foldlM_cons] at h
    cases hsd : set_device ps d with
    | none => rw [hsd] at h; simp at h
    | some ps1 =>
      rw [hsd] at h
      simp only [Option.bind_eq_bind, Option.some_bind] at h
      obtain ⟨h1, h2⟩ := ih ps1 h
      obtain ⟨h3, h4⟩ := set_device_preserves_status ps ps1 d hsd
      exact ⟨h1.trans h3, h2.trans h4⟩

/-- Folding the same device list from two start states yields the same
adapter slot, unless neither fold set it, in which case each fold
preserves its own start. -/
theorem foldlM_set_device_adp_det (devs : List Device) (ps qs p q : PowerSupply)
    (h : devs.foldlM set_device ps = some p)
    (h2 : devs.foldlM set_device qs = some q) :
    p.adp = q.adp ∨ (p.adp = ps.adp ∧ q.adp = qs.adp) := by
  induction devs generalizing ps qs with
  | nil =>
    simp only [List.foldlM_nil] at h h2
    cases h
    cases h2
    exact Or.inr ⟨rfl, rfl⟩
  | cons d rest ih =>
    rw [List.foldlM_cons] at h h2
    cases hsd : set_device ps d with
    | none => rw [hsd] at h; simp at h
    | some ps1 =>
      cases hsd2 : set_device qs d with
      | none => rw [hsd2] at h2; simp at h2
      | some qs1 =>
        rw [hsd] at h
        rw [hsd2] at h2
        simp only [Option.bind_eq_bind, Option.some_bind] at h h2
        rcases set_device_eq_some ps ps1 d hsd with ⟨hd, rfl⟩ | ⟨hd, rfl⟩ <;>
          rcases set_device_eq_some qs qs1 d hsd2 with ⟨hd2, rfl⟩ | ⟨hd2, rfl⟩
        · rcases ih _ _ h h2 with hl | ⟨hr1, hr2⟩
          · exact Or.inl hl
          · exact Or.inr ⟨hr1, hr2⟩
        · rw [hd] at hd2
          simp at hd2
        · rw [hd] at hd2
          simp at hd2
        · rcases ih _ _ h h2 with hl | ⟨hr1, hr2⟩
          · exact Or.inl hl
          · exact Or.inl (hr1.trans hr2.symm)

/-- Folding the same device list from two start states yields the same
battery slot, unless neither fold set it, in which case each fold
preserves its own start. -/
theorem foldlM_set_device_bat_det (devs : List Device) (ps qs p q : PowerSupply)
    (h : devs.foldlM set_device ps = some p)
    (h2 : devs.foldlM set_device qs = some q) :
    p.bat = q.bat ∨ (p.bat = ps.bat ∧ q.bat = qs.bat) := by
  induction devs generalizing ps qs with
  | nil =>
    simp only [List.foldlM_nil] at h h2
    cases h
    cases h2
    exact Or.inr ⟨rfl, rfl⟩
  | cons d rest ih =>
    rw [List.foldlM_cons] at h h2
    cases hsd : set_device ps d with
    | none => rw [hsd] at h; simp at h
    | some ps1 =>
      cases hsd2 : set_device qs d with
      | none => rw [hsd2] at h2; simp at h2
      | some qs1 =>
        rw [hsd] at h
        rw [hsd2] at h2
        simp only [Option.bind_eq_bind, Option.some_bind] at h h2
        rcases set_device_eq_some ps ps1 d hsd with ⟨hd, rfl⟩ | ⟨hd, rfl⟩ <;>
          rcases set_device_eq_some qs qs1 d hsd2 with ⟨hd2, rfl⟩ | ⟨hd2, rfl⟩
        · rcases ih _ _ h h2 with hl | ⟨hr1, hr2⟩
          · exact Or.inl hl
          · exact Or.inl (hr1.trans hr2.symm)
        · rw [hd] at hd2
          simp at hd2
        · rw [hd] at hd2
          simp at hd2
        · rcases ih _ _ h h2 with hl | ⟨hr1, hr2⟩
          · exact Or.inl hl
          · exact Or.inr ⟨hr1, hr2⟩

/-- When both slots are filled, `current_charging_status` skips enumeration
and updates the status fields from the pure resolution `resolve`. -/
theorem current_charging_status_of_slots (ps : PowerSupply) (devs : List Device)
    (a b : Device) (ha : ps.adp = some a) (hb : ps.bat = some b) :
    current_charging_status ps devs =
      some { ps with status_changed := resolve a b != ps.status,
                     status := resolve a b } := by
  unfold current_charging_status set_devices_if_not_set
  simp only [ha, hb, Option.isNone_some, Bool.or_self, Bool.false_eq_true,
    if_false, Option.some_bind]
  cases hA : Status.read_from_adapter_device a <;> simp [resolve, hA]

/-- Dissection of a successful `current_charging_status` call: the guard
returned some intermediate state whose adapter slot was filled; the
computed status is the adapter reading when conclusive, and the battery
reading of a necessarily held battery descriptor when the adapter reading
is `Unknown`; the result is the guard state with the status fields
recomputed. -/
theorem current_charging_status_eq_some (ps : PowerSupply) (devs : List Device)
    (p : PowerSupply) (h : current_charging_status ps devs = some p) :
    ∃ ps2 a s, set_devices_if_not_set ps devs = some ps2 ∧
      ps2.adp = some a ∧
      ((Status.read_from_adapter_device a = Status.Unknown ∧
          ∃ b, ps2.bat = some b ∧ s = Status.read_from_battery_device b) ∨
        (Status.read_from_adapter_device a ≠ Status.Unknown ∧
          s = Status.read_from_adapter_device a)) ∧
      p = { ps2 with status_changed := s != ps2.status, status := s } := by
  unfold current_charging_status at h
  cases hg : set_devices_if_not_set ps devs with
  | none => rw [hg] at h; simp at h
  | some ps2 =>
    rw [hg] at h
    simp only [Option.some_bind] at h
    cases ha : ps2.adp with
    | none => rw [ha] at h; simp at h
    | some a =>
      rw [ha] at h
      simp only [Option.some_bind] at h
      cases hA : Status.read_from_adapter_device a with
      | Unknown =>
        rw [hA] at h
        cases hb : ps2.bat with
        | none => rw [hb] at h; simp at h
        | some b =>
          rw [hb] at h
          simp only [Option.map_some', Option.some_bind, Option.some.injEq] at h
          refine ⟨ps2, a, Status.read_from_battery_device b, rfl, ha,
            Or.inl ⟨hA, b, hb, rfl⟩, ?_⟩
          rw [← h]
          simp [ha, hb]
      | Discharging =>
        rw [hA] at h
        simp only [Option.some_bind, Option.some.injEq] at h
        refine ⟨ps2, a, Status.Discharging, rfl, ha,
          Or.inr ⟨(by simp [hA]), hA.symm⟩, ?_⟩
        rw [← h]
        simp [ha]
      | Charging =>
        rw [hA] at h
        simp only [Option.some_bind, Option.some.injEq] at h
        refine ⟨ps2, a, Status.Charging, rfl, ha,
          Or.inr ⟨(by simp [hA]), hA.symm⟩, ?_⟩
        rw [← h]
        simp [ha]

/-! The claims. -/

/-- Claim C1: the spec states that ingesting a descriptor that classifies
as neither Battery nor Adapter is a silent no-op that returns normally and
never aborts.  In the code the `None` arm of `set_device` is `todo!()`,
which panics: at a concrete unclassifiable descriptor, `set_device` does
not return normally (`none` models the panic). -/
theorem claim1_unclassified_device_panics :
    device_type cex_unclassified = none ∧
    set_device PowerSupply.new cex_unclassified = none := by decide

/-- Claim C2 counterexample: a descriptor whose parent lookup fails
(`parent_driver_str` is `none`) and whose sysname starts with `"BAT"` is
claimed to classify as `Battery`; `device_type` classifies it as `none`,
because the `?` on the parent lookup short-circuits before the name
fallback is reached. -/
theorem claim2_counterexample :
    parent_driver_str cex_orphan_bat = none ∧
    strStartsWith cex_orphan_bat.sysname "BAT" = true ∧
    device_type cex_orphan_bat = none := by decide

/-- Claim C2 (amended): the short-name fallback applies only when the
parent driver string resolves but equals neither `"battery"` nor `"ac"`;
when the parent lookup fails or the driver string is absent or unreadable,
classification is `none` regardless of the short name. -/
theorem claim2_name_fallback_amended (dev : Device) :
    (parent_driver_str dev = none → device_type dev = none) ∧
    (∀ s, parent_driver_str dev = some s → s ≠ "battery" → s ≠ "ac" →
      device_type dev =
        (if strStartsWith dev.sysname "BAT" then some DeviceType.Battery
         else if strStartsWith dev.sysname "ADP" then some DeviceType.Adapter
         else none)) := by
  constructor
  · intro h
    cases hp : dev.parent_driver with
    | none => simp [device_type, hp]
    | some pd =>
      cases pd with
      | none => simp [device_type, hp]
      | some os =>
        cases os with
        | valid s =>
          exfalso
          unfold parent_driver_str at h
          rw [hp] at h
          simp [OsStrM.to_str] at h
        | invalid => simp [device_type, hp, OsStrM.to_str]
  · intro s hs hbat hac
    cases hp : dev.parent_driver with
    | none =>
      exfalso
      unfold parent_driver_str at hs
      rw [hp] at hs
      simp at hs
    | some pd =>
      cases pd with
      | none =>
        exfalso
        unfold parent_driver_str at hs
        rw [hp] at hs
        simp at hs
      | some os =>
        cases os with
        | invalid =>
          exfalso
          unfold parent_driver_str at hs
          rw [hp] at hs
          simp [OsStrM.to_str] at hs
        | valid t =>
          unfold parent_driver_str at hs
          rw [hp] at hs
          simp [OsStrM.to_str] at hs
          subst hs
          simp [device_type, hp, OsStrM.to_str, hbat, hac]

/-- Claim C2 (amended) witness: a device with unrecognised driver `"usb"`
and sysname `"BAT0"` classifies as `Battery` through the fallback. -/
theorem claim2_name_fallback_amended_witness :
    device_type cex_usb_bat = some DeviceType.Battery := by
  have h := (claim2_name_fallback_amended cex_usb_bat).2 "usb" (by decide)
    (by decide) (by decide)
  exact h.trans (by decide)

/-- Claim C3 counterexample: starting from a fresh tracker, if the
enumeration yields two battery devices, the guard
`set_devices_if_not_set` returns successfully while the adapter slot is
still empty — so the unchecked slot access in `current_charging_status`
would observe an absent value. -/
theorem claim3_counterexample :
    set_devices_if_not_set PowerSupply.new [cex_bat0, cex_bat1] =
      some { bat := some cex_bat1, adp := none,
             status := Status.Unknown, status_changed := true } := by decide

/-- Claim C3 (amended): the guard's successful return implies both slots
are present provided the enumeration pool contains at least one device
classifying as Battery and one classifying as Adapter. -/
theorem claim3_guard_amended (ps : PowerSupply) (devs : List Device)
    (ps1 : PowerSupply) (h : set_devices_if_not_set ps devs = some ps1)
    (hdevs : (∃ d ∈ devs, device_type d = some DeviceType.Battery) ∧
             (∃ d ∈ devs, device_type d = some DeviceType.Adapter)) :
    ps1.bat.isSome = true ∧ ps1.adp.isSome = true := by
  unfold set_devices_if_not_set at h
  by_cases hc : (ps.bat.isNone || ps.adp.isNone) = true
  · rw [if_pos hc] at h
    unfold enumerate at h
    by_cases hl : devs.length = 2
    · rw [if_pos hl] at h
      exact ⟨(foldlM_set_device_bat devs ps ps1 h).mpr (Or.inl hdevs.1),
             (foldlM_set_device_adp devs ps ps1 h).mpr (Or.inl hdevs.2)⟩
    · rw [if_neg hl] at h
      simp at h
  · rw [if_neg hc] at h
    have hps : ps = ps1 := Option.some.inj h
    subst hps
    constructor
    · cases hb2 : ps.bat with
      | none => exact absurd (by simp [hb2]) hc
      | some x => rfl
    · cases ha2 : ps.adp with
      | none => exact absurd (by simp [ha2]) hc
      | some x => rfl

/-- Claim C3 (amended) witness: from a fresh tracker, enumerating one
adapter and one battery leaves both slots filled. -/
theorem claim3_guard_amended_witness :
    demo_after_ingest.bat.isSome = true ∧
    demo_after_ingest.adp.isSome = true :=
  claim3_guard_amended PowerSupply.new [demo_adp, demo_bat] demo_after_ingest
    (by decide) ⟨by decide, by decide⟩

/-- Claim C4 counterexample: the claim requires an abort whenever the two
discovered devices are not one Battery and one Adapter.  Two devices both
classifying as Battery pass the `assert!(devices.len() == 2)` check and
`enumerate` returns normally, leaving the adapter slot unpopulated. -/
theorem claim4_counterexample :
    device_type cex_bat0 = some DeviceType.Battery ∧
    device_type cex_bat1 = some DeviceType.Battery ∧
    enumerate PowerSupply.new [cex_bat0, cex_bat1] =
      some { bat := some cex_bat1, adp := none,
             status := Status.Unknown, status_changed := true } := by decide

/-- Claim C4 (amended): when a slot is empty, the population guard returns
normally iff the enumeration yields exactly two devices, each of which
classifies as Battery or Adapter; otherwise it aborts (the length assert
or the `todo!()` panic).  One-of-each is not checked. -/
theorem claim4_enumeration_amended (ps : PowerSupply) (devs : List Device)
    (h : ps.bat.isNone = true ∨ ps.adp.isNone = true) :
    ((set_devices_if_not_set ps devs).isSome = true ↔
      (devs.length = 2 ∧ ∀ d ∈ devs, (device_type d).isSome = true)) := by
  have hc : (ps.bat.isNone || ps.adp.isNone) = true := by
    rcases h with h | h <;> simp [h]
  unfold set_devices_if_not_set
  rw [if_pos hc]
  unfold enumerate
  by_cases hl : devs.length = 2
  · rw [if_pos hl]
    simp [hl, foldlM_set_device_isSome]
  · rw [if_neg hl]
    simp [hl]

/-- Claim C4 (amended) witness: a fresh tracker with an adapter/battery
pair enumerates without aborting. -/
theorem claim4_enumeration_amended_witness :
    (set_devices_if_not_set PowerSupply.new [demo_adp, demo_bat]).isSome = true :=
  (claim4_enumeration_amended PowerSupply.new [demo_adp, demo_bat]
    (Or.inl (by decide))).mpr ⟨by decide, by decide⟩

/-- Claim C5: with both descriptors held, the recomputed status is the
adapter-derived status whenever that is `Charging` or `Discharging`,
regardless of the battery, and is the battery-derived status exactly when
the adapter-derived status is `Unknown`. -/
theorem claim5_adapter_priority (ps : PowerSupply) (devs : List Device)
    (a b : Device) (ha : ps.adp = some a) (hb : ps.bat = some b) :
    ((Status.read_from_adapter_device a = Status.Charging ∨
        Status.read_from_adapter_device a = Status.Discharging) →
      (current_charging_status ps devs).map PowerSupply.charging_status =
        some (Status.read_from_adapter_device a)) ∧
    (Status.read_from_adapter_device a = Status.Unknown →
      (current_charging_status ps devs).map PowerSupply.charging_status =
        some (Status.read_from_battery_device b)) := by
  rw [current_charging_status_of_slots ps devs a b ha hb]
  constructor
  · rintro (hA | hA) <;> simp [PowerSupply.charging_status, resolve, hA]
  · intro hA
    simp [PowerSupply.charging_status, resolve, hA]

/-- Claim C5 witness: with the demo pair (adapter online, battery
discharging) the resolved status is the adapter's `Charging`. -/
theorem claim5_adapter_priority_witness :
    (current_charging_status demo_after_ingest []).map
      PowerSupply.charging_status = some Status.Charging := by
  have h := (claim5_adapter_priority demo_after_ingest [] demo_adp demo_bat
    rfl rfl).1 (Or.inl (by decide))
  exact h.trans (by decide)

/-- Claim C6: reading the adapter's "online" property is total — it always
returns a status, equal to the spec's mapping of the parse result: parsed
`0` gives `Discharging`, `1` or `2` gives `Charging`, and anything else
(missing, non-numeric, other integer) gives `Unknown`. -/
theorem claim6_adapter_reader_total (dev : Device) :
    Status.read_from_adapter_device dev =
      spec_adapter_status (parseI32 (adapter_online_str dev)) := by
  unfold Status.read_from_adapter_device spec_adapter_status
  cases h : parseI32 (adapter_online_str dev) with
  | none => decide
  | some n => simp

/-- Claim C7: reading the battery's textual status property is total — it
always returns a status, equal to the spec's mapping of the property text:
`"Charging"` gives `Charging`, `"Discharging"` and `"Not charging"` give
`Discharging`, and any other or absent value gives `Unknown`. -/
theorem claim7_battery_reader_total (dev : Device) :
    Status.read_from_battery_device dev =
      spec_battery_status (battery_status_raw dev) := by
  unfold Status.read_from_battery_device battery_status_str
    spec_battery_status battery_status_raw
  cases hp : dev.property_value "POWER_SUPPLY_STATUS" with
  | none => decide
  | some os =>
    cases os with
    | valid s => simp [OsStrM.to_str]
    | invalid => decide

/-- Claim C8: two successive recomputations with no intervening ingest and
unchanged descriptors leave the change flag `false` after the second call
and the same status after both calls — for every starting state whose two
back-to-back calls return normally, including states where the second
call re-enumerates because the battery slot is still empty. -/
theorem claim8_recompute_idempotent (ps p1 p2 : PowerSupply)
    (devs : List Device)
    (h1 : current_charging_status ps devs = some p1)
    (h2 : current_charging_status p1 devs = some p2) :
    p2.charging_status_changed = false ∧
    p2.charging_status = p1.charging_status := by
  obtain ⟨ps2, a, s, hg, ha, hcase, hp1⟩ :=
    current_charging_status_eq_some ps devs p1 h1
  obtain ⟨ps3, a2, s2, hg2, ha2, hcase2, hp2⟩ :=
    current_charging_status_eq_some p1 devs p2 h2
  have hp1adp : p1.adp = some a := by rw [hp1]; simpa using ha
  have hp1bat : p1.bat = ps2.bat := by rw [hp1]
  have hp1status : p1.status = s := by rw [hp1]
  have hslots : ps3.adp = some a ∧ ps3.bat = ps2.bat ∧ ps3.status = p1.status := by
    rcases set_devices_if_not_set_eq_some p1 devs ps3 hg2 with
      ⟨hfull1, hfull2, rfl⟩ | ⟨hempty, hl2, hf2⟩
    · exact ⟨hp1adp, hp1bat, rfl⟩
    · have hbatnone : p1.bat.isNone = true := by
        rcases hempty with hx | hx
        · exact hx
        · rw [hp1adp] at hx
          simp at hx
      have hps2bat : ps2.bat = none := by
        rw [hp1bat] at hbatnone
        simpa using hbatnone
      rcases set_devices_if_not_set_eq_some ps devs ps2 hg with
        ⟨hbs, hos, rfl⟩ | ⟨hempty1, hl1, hf1⟩
      · rw [hps2bat] at hbs
        simp at hbs
      · have hadp := foldlM_set_device_adp_det devs ps p1 ps2 ps3 hf1 hf2
        have hbat := foldlM_set_device_bat_det devs ps p1 ps2 ps3 hf1 hf2
        have hstat := foldlM_set_device_status devs p1 ps3 hf2
        refine ⟨?_, ?_, hstat.1⟩
        · rcases hadp with hx | ⟨hx1, hx2⟩
          · exact hx.symm.trans ha
          · exact hx2.trans hp1adp
        · rcases hbat with hx | ⟨hx1, hx2⟩
          · exact hx.symm
          · exact hx2.trans hp1bat
  obtain ⟨hadp3, hbat3, hstat3⟩ := hslots
  have haa : a2 = a := Option.some.inj (ha2.symm.trans hadp3)
  subst haa
  have hs2eq : s2 = s := by
    rcases hcase2 with ⟨hU2, b2, hb2, hs2def⟩ | ⟨hK2, hs2def⟩
    · rcases hcase with ⟨hU, b, hb, hsdef⟩ | ⟨hK, hsdef⟩
      · have hbb : b2 = b := by
          have hx : some b2 = some b := hb2.symm.trans (hbat3.trans hb)
          exact Option.some.inj hx
        rw [hs2def, hsdef, hbb]
      · exact absurd hU2 hK
    · rcases hcase with ⟨hU, b, hb, hsdef⟩ | ⟨hK, hsdef⟩
      · exact absurd hU hK2
      · rw [hs2def, hsdef]
  have hst3 : ps3.status = s := hstat3.trans hp1status
  constructor
  · rw [hp2]
    show (s2 != ps3.status) = false
    rw [hs2eq, hst3]
    exact Status.bne_self s
  · rw [hp2]
    show s2 = p1.charging_status
    exact hs2eq.trans hp1status.symm

/-- Claim C8 witness: recomputing twice over the demo pair yields the same
`Charging` status and a cleared change flag. -/
theorem claim8_recompute_idempotent_witness :
    demo_recomputed_twice.charging_status_changed = false ∧
    demo_recomputed_twice.charging_status = demo_recomputed.charging_status :=
  claim8_recompute_idempotent demo_after_ingest demo_recomputed
    demo_recomputed_twice [] (by decide) (by decide)

/-- Claim C9 counterexample: `set_device` stores a descriptor without
recomputing, so after ingesting an online adapter and a battery into a
fresh tracker, `current_status` is still `Unknown` while the pure
resolution of the held descriptors is `Charging` — the claimed invariant
fails after an ingest. -/
theorem claim9_counterexample :
    ((set_device PowerSupply.new demo_adp).bind fun s =>
        set_device s demo_bat) = some demo_after_ingest ∧
    resolve demo_adp demo_bat = Status.Charging ∧
    demo_after_ingest.status = Status.Unknown ∧
    ¬ status_invariant demo_after_ingest := by decide

/-- Claim C9 (amended): the invariant — `current_status` equals the pure
resolution of the held descriptors, or `Unknown` when a slot is empty —
holds after construction, and after every successful recomputation whose
resulting state holds a battery descriptor.  It fails after a bare ingest
(no recomputation happens), and a successful recomputation with an empty
battery slot sets `current_status` to the conclusive adapter reading
rather than `Unknown`, so the battery-slot condition is needed. -/
theorem claim9_invariant_amended :
    status_invariant PowerSupply.new ∧
    ∀ ps devs p, current_charging_status ps devs = some p →
      p.bat.isSome = true → status_invariant p := by
  constructor
  · decide
  · intro ps devs p h hbat
    obtain ⟨ps2, a, s, hg, ha, hcase, hp⟩ :=
      current_charging_status_eq_some ps devs p h
    have hbat2 : ps2.bat.isSome = true := by
      rw [hp] at hbat
      simpa using hbat
    cases hb : ps2.bat with
    | none =>
      rw [hb] at hbat2
      simp at hbat2
    | some b =>
      rw [hp]
      show _ = _
      simp only [status_invariant, ha, hb]
      rcases hcase with ⟨hU, b2, hb2, hsdef⟩ | ⟨hK, hsdef⟩
      · have hbb : b2 = b := Option.some.inj (hb2.symm.trans hb)
        rw [hsdef, hbb]
        simp [resolve, hU]
      · rw [hsdef]
        cases hA : Status.read_from_adapter_device a with
        | Unknown => exact absurd hA hK
        | Discharging => simp [resolve, hA]
        | Charging => simp [resolve, hA]

/-- Claim C9 (amended) witness: after recomputing over the demo pair,
which leaves the battery slot held, the invariant holds. -/
theorem claim9_invariant_amended_witness :
    status_invariant demo_recomputed :=
  claim9_invariant_amended.2 demo_after_ingest [] demo_recomputed
    (by decide) (by decide)

/-- Claim C10: immediately after construction, via `new` or the `Default`
implementation, the tracker reports status `Unknown` and the change flag
`true`, although no recomputation has happened. -/
theorem claim10_initial_state :
    PowerSupply.new.charging_status = Status.Unknown ∧
    PowerSupply.new.charging_status_changed = true ∧
    PowerSupply.defaultImpl.charging_status = Status.Unknown ∧
    PowerSupply.defaultImpl.charging_status_changed = true := by decide

end Lid
